import Mathlib

/-!
Shallow embedding of the Mareographic Interruption System
(`src/interruption_system.py`, `src/station_manager.py`).

Modelling conventions:
* Python floats become `ℚ`; the comparisons in the evaluator are order
  comparisons on finite values, which ℚ reflects exactly.
* `datetime.now()` is an external clock; operations that read it take an
  explicit `now : ℕ` argument.
* Alert messages are Python f-strings built from fixed literal pieces and
  interpolated values.  Each distinct literal piece becomes a constructor
  carrying the interpolated values; the final string rendering is cosmetic
  and not modelled.
* OS signal dispatch (`signal.raise_signal`) and the external monitor call
  (`self.monitor.handle_interruption`) deliver the generated interruption to
  collaborators outside the station's own state; the generated interruption
  is returned as an explicit value instead.
* Console prints that are observable side effects named by the spec (the
  final-statistics emission of `stop_system`) are modelled as an explicit
  effect list; purely decorative prints are dropped.
-/

namespace Mareo

/-- Sensor health states (`SensorState` enum in the source). -/
inductive SensorState
  | functioning
  | read_failure
  | disconnected
deriving DecidableEq

/-- Alert kinds (`InterruptionType` enum; the OS signal numbers it wraps are
irrelevant to the claims). -/
inductive InterruptionType
  | sensor_failure
  | extreme_conditions
deriving DecidableEq

/-- One sensor sample (`SensorData` dataclass). -/
structure SensorData where
  water_level : ℚ
  temperature : ℚ
  pressure : ℚ
  wind_speed : ℚ
  state : SensorState
  timestamp : ℕ
deriving DecidableEq

/-- One sub-condition string appended to `extreme_conditions` in
`_evaluate_conditions`; each constructor is one of the five f-string
templates, carrying its interpolated value. -/
inductive Cond
  | extremeTide (level : ℚ)
  | highTide (level : ℚ)
  | extremeLowTemp (t : ℚ)
  | extremeHighTemp (t : ℚ)
  | extremeWind (w : ℚ)
deriving DecidableEq

/-- Alert message: either the sensor-failure f-string naming the health
state, or the joined list of extreme-condition strings. -/
inductive Message
  | sensorFailure (state : SensorState)
  | extremeConditions (conds : List Cond)
deriving DecidableEq

/-- The `Interruption` dataclass. -/
structure Interruption where
  type : InterruptionType
  timestamp : ℕ
  station_id : String
  message : Message
  sensor_data : SensorData
deriving DecidableEq

/-- Threshold configuration dict (`self.config`); the key set is fixed at
construction and never grows. -/
structure Config where
  high_tide_threshold : ℚ
  extreme_tide_threshold : ℚ
  extreme_temp_min : ℚ
  extreme_temp_max : ℚ
  extreme_wind_max : ℚ
  min_reading_interval : ℚ
  max_reading_interval : ℚ
deriving DecidableEq

/-- Default configuration from `InterruptionSystem.__init__` (2.5, 4.0,
-5.0, 35.0, 120.0, 0.5, 3.0; written with `mkRat` so that concrete
evaluation reduces in the kernel). -/
def defaultConfig : Config where
  high_tide_threshold := mkRat 5 2
  extreme_tide_threshold := 4
  extreme_temp_min := -5
  extreme_temp_max := 35
  extreme_wind_max := 120
  min_reading_interval := mkRat 1 2
  max_reading_interval := 3

/-- The keys of the configuration dict. -/
def configKeys : List String :=
  ["high_tide_threshold", "extreme_tide_threshold", "extreme_temp_min",
   "extreme_temp_max", "extreme_wind_max", "min_reading_interval",
   "max_reading_interval"]

/-- `key in self.config`: membership in the (fixed) key set of the dict. -/
def Config.hasKey (_c : Config) (k : String) : Bool :=
  configKeys.contains k

/-- `self.config[key] = value` for a known key (unknown keys leave the
record unchanged; `update_configuration` only calls this on known keys). -/
def Config.setKey (c : Config) (k : String) (v : ℚ) : Config :=
  if k = "high_tide_threshold" then { c with high_tide_threshold := v }
  else if k = "extreme_tide_threshold" then { c with extreme_tide_threshold := v }
  else if k = "extreme_temp_min" then { c with extreme_temp_min := v }
  else if k = "extreme_temp_max" then { c with extreme_temp_max := v }
  else if k = "extreme_wind_max" then { c with extreme_wind_max := v }
  else if k = "min_reading_interval" then { c with min_reading_interval := v }
  else if k = "max_reading_interval" then { c with max_reading_interval := v }
  else c

/-- `update_configuration(**kwargs)`: iterates the supplied pairs in order;
a known key is applied, an unknown key is reported (collected in the second
component, the model of the "Invalid parameter" prints) and skipped. -/
def update_configuration (c : Config) : List (String × ℚ) → Config × List String
  | [] => (c, [])
  | (k, v) :: rest =>
      if c.hasKey k then
        update_configuration (c.setKey k v) rest
      else
        let r := update_configuration c rest
        (r.1, k :: r.2)

/-- Statistics dict (`self.statistics`). -/
structure Statistics where
  total_interruptions : ℕ
  high_tide : ℕ
  sensor_failure : ℕ
  extreme_conditions : ℕ
deriving DecidableEq

/-- Mutable station state: the fields of `InterruptionSystem` touched by the
modelled operations.  `monitor_threads_started` counts the successive
`threading.Thread` objects assigned to `self.monitor_thread` and started
(the source keeps only the latest handle). -/
structure SystemState where
  station_id : String
  running : Bool
  shutdown_requested : Bool
  monitor_threads_started : ℕ
  config : Config
  statistics : Statistics
  last_interruption : Option Interruption
deriving DecidableEq

/-- `InterruptionSystem.__init__(station_id)`. -/
def initSystem (station_id : String) : SystemState where
  station_id := station_id
  running := false
  shutdown_requested := false
  monitor_threads_started := 0
  config := defaultConfig
  statistics :=
    { total_interruptions := 0
      high_tide := 0
      sensor_failure := 0
      extreme_conditions := 0 }
  last_interruption := none

/-- The statistics update at the end of `_generate_interruption`. -/
def bumpStatistics (stats : Statistics) (type : InterruptionType) : Statistics :=
  let stats := { stats with total_interruptions := stats.total_interruptions + 1 }
  match type with
  | InterruptionType.sensor_failure =>
      { stats with sensor_failure := stats.sensor_failure + 1 }
  | InterruptionType.extreme_conditions =>
      { stats with extreme_conditions := stats.extreme_conditions + 1 }

/-- `_generate_interruption(type, message, data)`: builds the interruption,
stores it in `_last_interruption`, dispatches it (modelled by returning it)
and updates the statistics. -/
def generate_interruption (now : ℕ) (s : SystemState) (type : InterruptionType)
    (message : Message) (data : SensorData) : SystemState × Interruption :=
  let interruption : Interruption :=
    { type := type
      timestamp := now
      station_id := s.station_id
      message := message
      sensor_data := data }
  ({ s with
      last_interruption := some interruption
      statistics := bumpStatistics s.statistics type },
   interruption)

/-- Tide sub-check of `_evaluate_conditions` (the `if`/`elif` on
`water_level`). -/
def tideConds (data : SensorData) (config : Config) : List Cond :=
  if data.water_level ≥ config.extreme_tide_threshold then
    [Cond.extremeTide data.water_level]
  else if data.water_level ≥ config.high_tide_threshold then
    [Cond.highTide data.water_level]
  else []

/-- Temperature sub-check of `_evaluate_conditions`. -/
def tempConds (data : SensorData) (config : Config) : List Cond :=
  if data.temperature ≤ config.extreme_temp_min then
    [Cond.extremeLowTemp data.temperature]
  else if data.temperature ≥ config.extreme_temp_max then
    [Cond.extremeHighTemp data.temperature]
  else []

/-- Wind sub-check of `_evaluate_conditions`. -/
def windConds (data : SensorData) (config : Config) : List Cond :=
  if data.wind_speed ≥ config.extreme_wind_max then
    [Cond.extremeWind data.wind_speed]
  else []

/-- The `extreme_conditions` list accumulated by `_evaluate_conditions`:
the three sub-checks append in order tide, temperature, wind. -/
def extremeConditionList (data : SensorData) (config : Config) : List Cond :=
  tideConds data config ++ tempConds data config ++ windConds data config

/-- `_evaluate_conditions(data)`: sensor failure preempts everything; else
the extreme-condition labels are collected and, when non-empty, one
extreme-conditions interruption is generated.  The second component is the
interruption generated this cycle, if any. -/
def evaluate_conditions (now : ℕ) (s : SystemState) (data : SensorData) :
    SystemState × Option Interruption :=
  if data.state ≠ SensorState.functioning then
    let r := generate_interruption now s InterruptionType.sensor_failure
      (Message.sensorFailure data.state) data
    (r.1, some r.2)
  else
    let extreme_conditions := extremeConditionList data s.config
    if extreme_conditions ≠ [] then
      let r := generate_interruption now s InterruptionType.extreme_conditions
        (Message.extremeConditions extreme_conditions) data
      (r.1, some r.2)
    else (s, none)

/-- The condition strings appearing in a message (empty for a
sensor-failure message). -/
def Message.condList : Message → List Cond
  | Message.sensorFailure _ => []
  | Message.extremeConditions conds => conds

/-- Does this condition string use the "Extreme tide" template? -/
def Cond.isExtremeTide : Cond → Bool
  | Cond.extremeTide _ => true
  | _ => false

/-- Does this condition string use the "High tide" template? -/
def Cond.isHighTide : Cond → Bool
  | Cond.highTide _ => true
  | _ => false

/-- The message mentions the extreme-tide label. -/
def mentionsExtremeTide (m : Message) : Bool :=
  m.condList.any Cond.isExtremeTide

/-- The message mentions the high-tide label. -/
def mentionsHighTide (m : Message) : Bool :=
  m.condList.any Cond.isHighTide

/-- Claim C1: a reading whose health state is not Functioning yields exactly
one SensorFailure alert whose message names the health state and reflects no
extreme-condition check, for every station state (hence every threshold
configuration). -/
theorem sensor_failure_preempts (now : ℕ) (s : SystemState) (data : SensorData)
    (h : data.state ≠ SensorState.functioning) :
    ∃ i, (evaluate_conditions now s data).2 = some i ∧
      i.type = InterruptionType.sensor_failure ∧
      i.message = Message.sensorFailure data.state ∧
      Message.condList i.message = [] := by
  refine ⟨(generate_interruption now s InterruptionType.sensor_failure
      (Message.sensorFailure data.state) data).2, ?_, rfl, rfl, rfl⟩
  simp [evaluate_conditions, h]

/-- A non-functioning reading on which claim C1's theorem is exercised. -/
def failureReading : SensorData where
  water_level := 0
  temperature := 0
  pressure := 0
  wind_speed := 0
  state := SensorState.read_failure
  timestamp := 0

/-- Witness for claim C1 at a concrete read-failure reading. -/
theorem sensor_failure_preempts_witness :
    ∃ i, (evaluate_conditions 0 (initSystem "A") failureReading).2 = some i ∧
      i.type = InterruptionType.sensor_failure ∧
      i.message = Message.sensorFailure failureReading.state ∧
      Message.condList i.message = [] :=
  sensor_failure_preempts 0 (initSystem "A") failureReading (by decide)

/-- On a functioning reading, `_evaluate_conditions` reduces to the
extreme-condition branch. -/
theorem evaluate_functioning (now : ℕ) (s : SystemState) (data : SensorData)
    (hf : data.state = SensorState.functioning) :
    evaluate_conditions now s data =
      if extremeConditionList data s.config ≠ [] then
        ((generate_interruption now s InterruptionType.extreme_conditions
            (Message.extremeConditions (extremeConditionList data s.config)) data).1,
         some (generate_interruption now s InterruptionType.extreme_conditions
            (Message.extremeConditions (extremeConditionList data s.config)) data).2)
      else (s, none) := by
  simp [evaluate_conditions, hf]

/-- The temperature sub-check contributes no tide label. -/
theorem tempConds_no_tide (data : SensorData) (config : Config) :
    (tempConds data config).any Cond.isExtremeTide = false ∧
    (tempConds data config).any Cond.isHighTide = false := by
  unfold tempConds
  split_ifs <;> simp [Cond.isExtremeTide, Cond.isHighTide]

/-- The wind sub-check contributes no tide label. -/
theorem windConds_no_tide (data : SensorData) (config : Config) :
    (windConds data config).any Cond.isExtremeTide = false ∧
    (windConds data config).any Cond.isHighTide = false := by
  unfold windConds
  split_ifs <;> simp [Cond.isExtremeTide, Cond.isHighTide]

/-- The tide labels of the collected list come from the tide sub-check
alone. -/
theorem extremeList_tide_mentions (data : SensorData) (config : Config) :
    ((extremeConditionList data config).any Cond.isExtremeTide
        = (tideConds data config).any Cond.isExtremeTide) ∧
    ((extremeConditionList data config).any Cond.isHighTide
        = (tideConds data config).any Cond.isHighTide) := by
  have ht := tempConds_no_tide data config
  have hw := windConds_no_tide data config
  unfold extremeConditionList
  simp [List.any_append, ht.1, ht.2, hw.1, hw.2]

/-- The `if`/`elif` of the tide sub-check never emits both tide labels. -/
theorem tideConds_not_both (data : SensorData) (config : Config) :
    ¬((tideConds data config).any Cond.isExtremeTide = true ∧
      (tideConds data config).any Cond.isHighTide = true) := by
  unfold tideConds
  split_ifs <;> simp [Cond.isExtremeTide, Cond.isHighTide]

/-- At the boundary, the tide sub-check emits exactly the extreme label. -/
theorem tideConds_at_boundary (data : SensorData) (config : Config)
    (h : data.water_level = config.extreme_tide_threshold) :
    tideConds data config = [Cond.extremeTide data.water_level] := by
  unfold tideConds
  rw [if_pos h.ge]

/-- Claim C6: a functioning reading whose water level equals the
extreme-tide threshold yields an alert mentioning the extreme-tide label and
not the high-tide label; and no alert of the evaluator ever mentions both
tide labels. -/
theorem extreme_tide_boundary (now : ℕ) (s : SystemState) (data : SensorData)
    (hf : data.state = SensorState.functioning) :
    (data.water_level = s.config.extreme_tide_threshold →
      ∃ i, (evaluate_conditions now s data).2 = some i ∧
        mentionsExtremeTide i.message = true ∧
        mentionsHighTide i.message = false) ∧
    (∀ i, (evaluate_conditions now s data).2 = some i →
      ¬(mentionsExtremeTide i.message = true ∧
        mentionsHighTide i.message = true)) := by
  have hmain := evaluate_functioning now s data hf
  constructor
  · intro hw
    have htide := tideConds_at_boundary data s.config hw
    have hne : extremeConditionList data s.config ≠ [] := by
      unfold extremeConditionList
      rw [htide]
      simp
    refine ⟨(generate_interruption now s InterruptionType.extreme_conditions
        (Message.extremeConditions (extremeConditionList data s.config)) data).2,
      by rw [hmain, if_pos hne], ?_, ?_⟩
    · have hm := (extremeList_tide_mentions data s.config).1
      simp [generate_interruption, mentionsExtremeTide, Message.condList, hm,
        htide, Cond.isExtremeTide]
    · have hm := (extremeList_tide_mentions data s.config).2
      simp [generate_interruption, mentionsHighTide, Message.condList, hm,
        htide, Cond.isHighTide]
  · intro i hi hboth
    by_cases hne : extremeConditionList data s.config ≠ []
    · rw [hmain, if_pos hne] at hi
      have hieq : i = (generate_interruption now s InterruptionType.extreme_conditions
          (Message.extremeConditions (extremeConditionList data s.config)) data).2 :=
        (Option.some.inj hi).symm
      subst hieq
      have h1 := (extremeList_tide_mentions data s.config).1
      have h2 := (extremeList_tide_mentions data s.config).2
      apply tideConds_not_both data s.config
      constructor
      · rw [← h1]
        exact hboth.1
      · rw [← h2]
        exact hboth.2
    · rw [hmain, if_neg hne] at hi
      exact Option.noConfusion hi

/-- A functioning reading sitting exactly at the default extreme-tide
threshold. -/
def boundaryReading : SensorData where
  water_level := 4
  temperature := 20
  pressure := 1013
  wind_speed := 10
  state := SensorState.functioning
  timestamp := 0

/-- Witness for claim C6 at the boundary reading. -/
theorem extreme_tide_boundary_witness :
    ∃ i, (evaluate_conditions 0 (initSystem "A") boundaryReading).2 = some i ∧
      mentionsExtremeTide i.message = true ∧
      mentionsHighTide i.message = false :=
  (extreme_tide_boundary 0 (initSystem "A") boundaryReading rfl).1 (by decide)

/-- Claim C7: on a functioning reading, no alert results when every numeric
field sits strictly below every threshold, and one ExtremeConditions alert
with the tide-temperature-wind concatenated message results when at least
one check fires. -/
theorem functioning_alert_classification (now : ℕ) (s : SystemState)
    (data : SensorData) (hf : data.state = SensorState.functioning) :
    ((data.water_level < s.config.extreme_tide_threshold ∧
      data.water_level < s.config.high_tide_threshold ∧
      s.config.extreme_temp_min < data.temperature ∧
      data.temperature < s.config.extreme_temp_max ∧
      data.wind_speed < s.config.extreme_wind_max) →
      (evaluate_conditions now s data).2 = none) ∧
    ((data.water_level ≥ s.config.extreme_tide_threshold ∨
      data.water_level ≥ s.config.high_tide_threshold ∨
      data.temperature ≤ s.config.extreme_temp_min ∨
      data.temperature ≥ s.config.extreme_temp_max ∨
      data.wind_speed ≥ s.config.extreme_wind_max) →
      ∃ i, (evaluate_conditions now s data).2 = some i ∧
        i.type = InterruptionType.extreme_conditions ∧
        i.message = Message.extremeConditions
          (tideConds data s.config ++ tempConds data s.config ++
           windConds data s.config)) := by
  have hmain := evaluate_functioning now s data hf
  constructor
  · rintro ⟨h1, h2, h3, h4, h5⟩
    have ht : tideConds data s.config = [] := by
      unfold tideConds
      rw [if_neg (not_le.mpr h1), if_neg (not_le.mpr h2)]
    have htmp : tempConds data s.config = [] := by
      unfold tempConds
      rw [if_neg (not_le.mpr h3), if_neg (not_le.mpr h4)]
    have hwd : windConds data s.config = [] := by
      unfold windConds
      rw [if_neg (not_le.mpr h5)]
    have hempty : extremeConditionList data s.config = [] := by
      unfold extremeConditionList
      rw [ht, htmp, hwd]
      rfl
    rw [hmain, if_neg (by simp [hempty])]
  · intro hfire
    have hne : extremeConditionList data s.config ≠ [] := by
      unfold extremeConditionList tideConds tempConds windConds
      rcases hfire with h | h | h | h | h <;> split_ifs <;> simp_all
    exact ⟨(generate_interruption now s InterruptionType.extreme_conditions
        (Message.extremeConditions (extremeConditionList data s.config)) data).2,
      by rw [hmain, if_pos hne], rfl, rfl⟩

/-- A functioning reading with every numeric field inside the normal
bands of the default configuration. -/
def normalReading : SensorData where
  water_level := mkRat 3 2
  temperature := 20
  pressure := 1013
  wind_speed := 10
  state := SensorState.functioning
  timestamp := 0

/-- Witness for claim C7: the quiet reading raises nothing and the boundary
reading raises one ExtremeConditions alert. -/
theorem functioning_alert_classification_witness :
    (evaluate_conditions 0 (initSystem "A") normalReading).2 = none ∧
    (∃ i, (evaluate_conditions 0 (initSystem "A") boundaryReading).2 = some i ∧
      i.type = InterruptionType.extreme_conditions ∧
      i.message = Message.extremeConditions
        (tideConds boundaryReading (initSystem "A").config ++
         tempConds boundaryReading (initSystem "A").config ++
         windConds boundaryReading (initSystem "A").config)) :=
  ⟨(functioning_alert_classification 0 (initSystem "A") normalReading rfl).1
      (by refine ⟨?_, ?_, ?_, ?_, ?_⟩ <;> decide),
   (functioning_alert_classification 0 (initSystem "A") boundaryReading rfl).2
      (Or.inl (by decide))⟩

/-- Observable shutdown side effect of `stop_system` named by the spec:
the final-statistics emission (`_show_final_statistics`). -/
inductive Effect
  | finalStatistics (stats : Statistics)
deriving DecidableEq

/-- `start_system()`: unconditionally marks the system running, resets the
stop-request flag and starts a fresh monitor thread.  The source performs no
state check and defines no error path. -/
def start_system (s : SystemState) : SystemState :=
  { s with
      running := true
      shutdown_requested := false
      monitor_threads_started := s.monitor_threads_started + 1 }

/-- `stop_system()`: returns immediately when not running; otherwise clears
the running flag, sets the stop request, joins the thread (bounded, not
modelled as state) and emits the final statistics. -/
def stop_system (s : SystemState) : SystemState × List Effect :=
  if s.running then
    ({ s with running := false, shutdown_requested := true },
     [Effect.finalStatistics s.statistics])
  else (s, [])

/-- Claim C4 counterexample input: a station in the StopRequested phase
(running with a pending stop request) that has launched one loop. -/
def runningSystem : SystemState :=
  { initSystem "B" with
      running := true
      shutdown_requested := true
      monitor_threads_started := 1 }

/-- Claim C4 counterexample: on a running station, `start_system` raises no
error (it is a total function with no error result) and changes state: it
resets the stop-request flag and launches a second sampling loop. -/
theorem start_on_running_changes_state :
    (start_system runningSystem).running = true ∧
    (start_system runningSystem).shutdown_requested = false ∧
    runningSystem.shutdown_requested = true ∧
    (start_system runningSystem).monitor_threads_started = 2 ∧
    start_system runningSystem ≠ runningSystem := by
  refine ⟨rfl, rfl, rfl, rfl, ?_⟩
  intro h
  exact Bool.noConfusion (congrArg SystemState.shutdown_requested h)

/-- Claim C4 as amended: `start_system` never fails; from every state
(Stopped, Running or StopRequested alike) it sets the running flag, resets
the stop-request flag and launches one more sampling loop, leaving
identifier, configuration and statistics untouched. -/
theorem start_system_unconditional (s : SystemState) :
    (start_system s).running = true ∧
    (start_system s).shutdown_requested = false ∧
    (start_system s).monitor_threads_started = s.monitor_threads_started + 1 ∧
    (start_system s).station_id = s.station_id ∧
    (start_system s).config = s.config ∧
    (start_system s).statistics = s.statistics ∧
    (start_system s).last_interruption = s.last_interruption :=
  ⟨rfl, rfl, rfl, rfl, rfl, rfl, rfl⟩

/-- Claim C5: `stop_system` on an already-stopped station is a no-op with
no error and no effects, and a second stop directly after any stop changes
nothing and re-emits nothing, so the final-statistics emission happens at
most once per stop cycle. -/
theorem stop_system_idempotent (s : SystemState) :
    (s.running = false → stop_system s = (s, [])) ∧
    stop_system (stop_system s).1 = ((stop_system s).1, []) := by
  constructor
  · intro h
    simp [stop_system, h]
  · by_cases h : s.running
    · simp [stop_system, h]
    · simp [stop_system, h]

/-- Witness for claim C5: stopping a freshly constructed (stopped) station
is a no-op, and the stop after a start-stop cycle emits nothing. -/
theorem stop_system_idempotent_witness :
    stop_system (initSystem "A") = (initSystem "A", []) ∧
    stop_system (stop_system (start_system (initSystem "A"))).1
      = ((stop_system (start_system (initSystem "A"))).1, []) :=
  ⟨(stop_system_idempotent (initSystem "A")).1 rfl,
   (stop_system_idempotent (start_system (initSystem "A"))).2⟩

/-- Claim C9 counterexample: evaluating a reading is not mutation-free; on
a read-failure reading the evaluator increments the station's statistics,
so two evaluations from the same starting state leave different states. -/
theorem evaluate_mutates_statistics :
    (evaluate_conditions 0 (initSystem "A") failureReading).1.statistics
      ≠ (initSystem "A").statistics := by decide

/-- Claim C9 as amended: the alert decision is deterministic in the inputs
it reads — reading, threshold configuration, station identifier and clock —
and independent of the rest of the station state (statistics, flags, last
interruption); but the evaluator does mutate station state when an alert is
generated. -/
theorem evaluate_decision_deterministic (now : ℕ) (s₁ s₂ : SystemState)
    (data : SensorData) (hc : s₁.config = s₂.config)
    (hid : s₁.station_id = s₂.station_id) :
    (evaluate_conditions now s₁ data).2 = (evaluate_conditions now s₂ data).2 := by
  unfold evaluate_conditions generate_interruption
  rw [hc, hid]
  by_cases h : data.state ≠ SensorState.functioning
  · simp [h]
  · by_cases h₂ : extremeConditionList data s₂.config ≠ []
    · simp [h, h₂]
    · simp [h, h₂]

/-- A station state agreeing with the fresh station on configuration and
identifier but differing on every other mutable field. -/
def alteredSystem : SystemState :=
  { initSystem "A" with
      running := true
      shutdown_requested := true
      monitor_threads_started := 3
      statistics :=
        { total_interruptions := 5
          high_tide := 0
          sensor_failure := 5
          extreme_conditions := 0 } }

/-- Witness for claim C9's amended theorem: the fresh and the altered
station decide the read-failure reading identically. -/
theorem evaluate_decision_deterministic_witness :
    (evaluate_conditions 0 (initSystem "A") failureReading).2
      = (evaluate_conditions 0 alteredSystem failureReading).2 :=
  evaluate_decision_deterministic 0 (initSystem "A") alteredSystem
    failureReading rfl rfl

/-- The statistics consistency property of claim C10. -/
def statsOk (stats : Statistics) : Prop :=
  stats.total_interruptions = stats.sensor_failure + stats.extreme_conditions ∧
  stats.high_tide = 0

/-- Run a sequence of sampling cycles (clock value and reading for each)
through `_evaluate_conditions`, threading the station state. -/
def runEvaluations (s : SystemState) : List (ℕ × SensorData) → SystemState
  | [] => s
  | e :: rest => runEvaluations (evaluate_conditions e.1 s e.2).1 rest

/-- The station state reached from construction by a sequence of
evaluations. -/
def reachedState (station_id : String) (evals : List (ℕ × SensorData)) :
    SystemState :=
  runEvaluations (initSystem station_id) evals

/-- One evaluation either generates nothing and leaves the statistics
alone, or generates an interruption and applies `bumpStatistics`. -/
theorem evaluate_stats_cases (now : ℕ) (s : SystemState) (data : SensorData) :
    ((evaluate_conditions now s data).2 = none ∧
     (evaluate_conditions now s data).1.statistics = s.statistics) ∨
    ((evaluate_conditions now s data).2 ≠ none ∧
     ∃ t, (evaluate_conditions now s data).1.statistics
        = bumpStatistics s.statistics t) := by
  by_cases h : data.state ≠ SensorState.functioning
  · exact Or.inr ⟨by simp [evaluate_conditions, h, generate_interruption],
      InterruptionType.sensor_failure,
      by simp [evaluate_conditions, h, generate_interruption]⟩
  · by_cases h₂ : extremeConditionList data s.config ≠ []
    · exact Or.inr ⟨by simp [evaluate_conditions, h, h₂, generate_interruption],
        InterruptionType.extreme_conditions,
        by simp [evaluate_conditions, h, h₂, generate_interruption]⟩
    · exact Or.inl ⟨by simp [evaluate_conditions, h, h₂],
        by simp [evaluate_conditions, h, h₂]⟩

/-- `bumpStatistics` increments the total and exactly one per-kind counter
and leaves `high_tide` alone. -/
theorem bumpStatistics_increments (stats : Statistics) (t : InterruptionType) :
    (bumpStatistics stats t).total_interruptions
      = stats.total_interruptions + 1 ∧
    (bumpStatistics stats t).high_tide = stats.high_tide ∧
    (((bumpStatistics stats t).sensor_failure = stats.sensor_failure + 1 ∧
      (bumpStatistics stats t).extreme_conditions = stats.extreme_conditions) ∨
     ((bumpStatistics stats t).sensor_failure = stats.sensor_failure ∧
      (bumpStatistics stats t).extreme_conditions
        = stats.extreme_conditions + 1)) := by
  cases t <;> simp [bumpStatistics]

/-- `bumpStatistics` never decreases a counter. -/
theorem bumpStatistics_monotone (stats : Statistics) (t : InterruptionType) :
    stats.total_interruptions ≤ (bumpStatistics stats t).total_interruptions ∧
    stats.high_tide ≤ (bumpStatistics stats t).high_tide ∧
    stats.sensor_failure ≤ (bumpStatistics stats t).sensor_failure ∧
    stats.extreme_conditions ≤ (bumpStatistics stats t).extreme_conditions := by
  cases t <;> simp [bumpStatistics]

/-- `bumpStatistics` preserves `statsOk`. -/
theorem bumpStatistics_ok (stats : Statistics) (t : InterruptionType)
    (h : statsOk stats) : statsOk (bumpStatistics stats t) := by
  obtain ⟨h₁, h₂⟩ := h
  cases t <;> simp [bumpStatistics, statsOk, h₂] <;> omega

/-- `statsOk` holds along every evaluation sequence. -/
theorem runEvaluations_statsOk (evals : List (ℕ × SensorData))
    (s : SystemState) (h : statsOk s.statistics) :
    statsOk (runEvaluations s evals).statistics := by
  induction evals generalizing s with
  | nil => exact h
  | cons e rest ih =>
      show statsOk (runEvaluations (evaluate_conditions e.1 s e.2).1 rest).statistics
      apply ih
      rcases evaluate_stats_cases e.1 s e.2 with ⟨_, heq⟩ | ⟨_, t, heq⟩
      · rw [heq]
        exact h
      · rw [heq]
        exact bumpStatistics_ok s.statistics t h

/-- Claim C10: in every state reachable from construction by evaluations,
the total equals the sum of the two per-kind counters and `high_tide` is 0;
one further evaluation that generates an interruption adds 1 to the total
and to exactly one per-kind counter, and no counter ever decreases. -/
theorem statistics_invariant (station_id : String)
    (evals : List (ℕ × SensorData)) (now : ℕ) (data : SensorData) :
    statsOk (reachedState station_id evals).statistics ∧
    (reachedState station_id evals).statistics.high_tide = 0 ∧
    ((evaluate_conditions now (reachedState station_id evals) data).2 ≠ none →
      (evaluate_conditions now (reachedState station_id evals) data).1.statistics.total_interruptions
        = (reachedState station_id evals).statistics.total_interruptions + 1 ∧
      (((evaluate_conditions now (reachedState station_id evals) data).1.statistics.sensor_failure
          = (reachedState station_id evals).statistics.sensor_failure + 1 ∧
        (evaluate_conditions now (reachedState station_id evals) data).1.statistics.extreme_conditions
          = (reachedState station_id evals).statistics.extreme_conditions) ∨
       ((evaluate_conditions now (reachedState station_id evals) data).1.statistics.sensor_failure
          = (reachedState station_id evals).statistics.sensor_failure ∧
        (evaluate_conditions now (reachedState station_id evals) data).1.statistics.extreme_conditions
          = (reachedState station_id evals).statistics.extreme_conditions + 1))) ∧
    (reachedState station_id evals).statistics.total_interruptions
      ≤ (evaluate_conditions now (reachedState station_id evals) data).1.statistics.total_interruptions ∧
    (reachedState station_id evals).statistics.sensor_failure
      ≤ (evaluate_conditions now (reachedState station_id evals) data).1.statistics.sensor_failure ∧
    (reachedState station_id evals).statistics.extreme_conditions
      ≤ (evaluate_conditions now (reachedState station_id evals) data).1.statistics.extreme_conditions ∧
    (reachedState station_id evals).statistics.high_tide
      ≤ (evaluate_conditions now (reachedState station_id evals) data).1.statistics.high_tide := by
  have hok : statsOk (reachedState station_id evals).statistics :=
    runEvaluations_statsOk evals (initSystem station_id) ⟨rfl, rfl⟩
  rcases evaluate_stats_cases now (reachedState station_id evals) data with
    ⟨hn, heq⟩ | ⟨hn, t, heq⟩
  · refine ⟨hok, hok.2, ?_, ?_, ?_, ?_, ?_⟩
    · intro hcontra
      exact absurd hn hcontra
    all_goals rw [heq]
  · have hinc := bumpStatistics_increments
      (reachedState station_id evals).statistics t
    have hmono := bumpStatistics_monotone
      (reachedState station_id evals).statistics t
    refine ⟨hok, hok.2, fun _ => ?_, ?_, ?_, ?_, ?_⟩
    · rw [heq]
      exact ⟨hinc.1, hinc.2.2⟩
    · rw [heq]
      exact hmono.1
    · rw [heq]
      exact hmono.2.2.1
    · rw [heq]
      exact hmono.2.2.2
    · rw [heq]
      exact hmono.2.1

/-- Witness for claim C10: after no evaluations the invariant holds, and
evaluating the read-failure reading increments the total by one. -/
theorem statistics_invariant_witness :
    statsOk (reachedState "A" []).statistics ∧
    (evaluate_conditions 0 (reachedState "A" []) failureReading).1.statistics.total_interruptions
      = (reachedState "A" []).statistics.total_interruptions + 1 := by
  have h := statistics_invariant "A" [] 0 failureReading
  exact ⟨h.1, (h.2.2.1 (by decide)).1⟩

/-- Claim C8: `update_configuration` validates each supplied key
individually: the resulting configuration is the one obtained by applying
exactly the known keys in order, every unknown key is reported in the
rejected list without aborting the call, and unknown keys change nothing. -/
theorem update_configuration_per_key (c : Config) (kvs : List (String × ℚ)) :
    update_configuration c kvs =
      ((kvs.filter fun kv => c.hasKey kv.1).foldl
          (fun acc kv => acc.setKey kv.1 kv.2) c,
       (kvs.filter fun kv => !c.hasKey kv.1).map Prod.fst) := by
  induction kvs generalizing c with
  | nil => rfl
  | cons kv rest ih =>
      by_cases h : kv.1 ∈ configKeys
      · simp [update_configuration, Config.hasKey, h, List.filter_cons,
          ih (c.setKey kv.1 kv.2)]
      · simp [update_configuration, Config.hasKey, h, List.filter_cons, ih c]

/-- The station dictionary of `StationManager` (`self.stations`): an
insertion-ordered mapping from identifier to station. -/
structure StationManager where
  stations : List (String × SystemState)
deriving DecidableEq

/-- Python dict update `d[k] = v`: replaces the value at the first (only)
occurrence of the key, or appends the binding at the end. -/
def dictSet (l : List (String × SystemState)) (k : String) (v : SystemState) :
    List (String × SystemState) :=
  match l with
  | [] => [(k, v)]
  | (k₂, v₂) :: rest =>
      if k₂ = k then (k, v) :: rest else (k₂, v₂) :: dictSet rest k v

/-- Python dict read `d[k]` (as an option). -/
def dictGet (l : List (String × SystemState)) (k : String) :
    Option SystemState :=
  match l with
  | [] => none
  | (k₂, v) :: rest => if k₂ = k then some v else dictGet rest k

/-- Number of bindings a key has in the association list (a Python dict
always has 0 or 1). -/
def keyCount (l : List (String × SystemState)) (k : String) : ℕ :=
  (l.filter fun p => p.1 = k).length

/-- `add_station(station_id, custom_config)`: builds a fresh
`InterruptionSystem`, applies the overrides through
`update_configuration`, and stores it under the identifier — overwriting
whatever was there.  The source checks for no collision and defines no
error path. -/
def add_station (m : StationManager) (station_id : String)
    (custom_config : Option (List (String × ℚ))) :
    StationManager × SystemState :=
  let system := initSystem station_id
  let system :=
    match custom_config with
    | some cfg =>
        { system with config := (update_configuration system.config cfg).1 }
    | none => system
  ({ stations := dictSet m.stations station_id system }, system)

/-- Setting a key makes it the first hit of a lookup. -/
theorem dictGet_dictSet (l : List (String × SystemState)) (k : String)
    (v : SystemState) : dictGet (dictSet l k v) k = some v := by
  induction l with
  | nil => simp [dictSet, dictGet]
  | cons p rest ih =>
      by_cases h : p.1 = k
      · simp [dictSet, dictGet, h]
      · simp [dictSet, dictGet, h, ih]

/-- Setting an existing key preserves the number of bindings. -/
theorem keyCount_dictSet (l : List (String × SystemState)) (k : String)
    (v : SystemState) (h : 1 ≤ keyCount l k) :
    keyCount (dictSet l k v) k = keyCount l k := by
  induction l with
  | nil => simp [keyCount] at h
  | cons p rest ih =>
      by_cases hp : p.1 = k
      · simp [dictSet, keyCount, hp]
      · have h' : 1 ≤ keyCount rest k := by
          simpa [keyCount, hp] using h
        simp [dictSet, keyCount, hp] at ih ⊢
        exact ih h'

/-- The manager holding one station "A" with a raised high-tide threshold,
then the same identifier added again with no overrides. -/
def managerPair : StationManager × SystemState :=
  add_station { stations := [] } "A" (some [("high_tide_threshold", 9)])

/-- Claim C3 counterexample: adding "A" to a manager that already holds a
station "A" raises no error (the operation is total) and mutates the
manager: the station now stored under "A" is the newly built one, not the
previously added one. -/
theorem add_station_duplicate_overwrites :
    (add_station managerPair.1 "A" none).1.stations = [("A", initSystem "A")] ∧
    dictGet (add_station managerPair.1 "A" none).1.stations "A"
      ≠ dictGet managerPair.1.stations "A" ∧
    (add_station managerPair.1 "A" none).1 ≠ managerPair.1 := by
  refine ⟨by decide, by decide, by decide⟩

/-- Claim C3 as amended: `add_station` with an already-present identifier
does not fail; it constructs a fresh station (default configuration plus
the supplied overrides, zero statistics) and replaces the stored entry, so
the manager still holds exactly one station under that identifier — the
newly constructed one. -/
theorem add_station_duplicate_replaces (m : StationManager)
    (station_id : String) (custom_config : Option (List (String × ℚ)))
    (h : keyCount m.stations station_id = 1) :
    keyCount (add_station m station_id custom_config).1.stations station_id
      = 1 ∧
    dictGet (add_station m station_id custom_config).1.stations station_id
      = some (add_station m station_id custom_config).2 ∧
    (add_station m station_id custom_config).2.station_id = station_id ∧
    (add_station m station_id custom_config).2.config
      = (update_configuration defaultConfig (custom_config.getD [])).1 ∧
    (add_station m station_id custom_config).2.statistics
      = (initSystem station_id).statistics := by
  refine ⟨?_, ?_, ?_, ?_, ?_⟩
  · have := keyCount_dictSet m.stations station_id
      (add_station m station_id custom_config).2 (by omega)
    simpa [add_station, h] using this
  · cases custom_config <;>
      simp [add_station, dictGet_dictSet]
  · cases custom_config <;> rfl
  · cases custom_config <;> rfl
  · cases custom_config <;> rfl

/-- Witness for claim C3's amended theorem on the one-station manager. -/
theorem add_station_duplicate_replaces_witness :
    keyCount (add_station managerPair.1 "A" none).1.stations "A" = 1 ∧
    dictGet (add_station managerPair.1 "A" none).1.stations "A"
      = some (add_station managerPair.1 "A" none).2 ∧
    (add_station managerPair.1 "A" none).2.station_id = "A" ∧
    (add_station managerPair.1 "A" none).2.config
      = (update_configuration defaultConfig ((none :
          Option (List (String × ℚ))).getD [])).1 ∧
    (add_station managerPair.1 "A" none).2.statistics
      = (initSystem "A").statistics :=
  add_station_duplicate_replaces managerPair.1 "A" none (by decide)

/-- The post-sleep polling loop of `_monitor_sensors`
(`for _ in range(int(interval * 10)): if shutdown_requested: break;
time.sleep(0.1)`), as a timing model: `now` is the elapsed time since the
wait began, `tReq` the elapsed time at which the stop request is raised
(the flag is set from `tReq` on), and the result is the elapsed time at
which the polling ends. -/
def pollLoop (tReq : ℚ) : ℕ → ℚ → ℚ
  | 0, now => now
  | k + 1, now => if tReq ≤ now then now else pollLoop tReq k (now + mkRat 1 10)

/-- Timing model of the full inter-sample wait of `_monitor_sensors`:
`time.sleep(interval)` runs to completion no matter when the stop request
arrives (a plain, non-cancellable sleep), and only then the polling loop
checks the flag, `int(interval * 10)` times at 0.1-second steps (for the
non-negative intervals of the source, `int` truncation is the floor).
Returns the elapsed time at which the wait ends given a stop request at
elapsed time `tReq`. -/
def waitWakeTime (interval tReq : ℚ) : ℚ :=
  pollLoop tReq (Int.floor (interval * 10)).toNat interval

/-- Timing model of `stop_system` after `start_system`: it sets the flags
at elapsed time `tStop` of the current wait and joins the monitor thread
with `timeout=2`, so it returns after the thread wakes or after 2 seconds,
whichever is first. -/
def stopReturnLatency (interval tStop : ℚ) : ℚ :=
  min (waitWakeTime interval tStop - tStop) 2

/-- A stop request that arrives while the plain sleep is still running is
only observed once the whole interval has elapsed. -/
theorem pollLoop_of_le (tReq now : ℚ) (h : tReq ≤ now) :
    ∀ n, pollLoop tReq n now = now := by
  intro n
  cases n with
  | zero => rfl
  | succ k => simp [pollLoop, h]

/-- The wait ends exactly at `interval` whenever the stop request arrives
during the plain sleep: the wait is not cancellable. -/
theorem waitWakeTime_of_early_stop (interval tReq : ℚ) (h : tReq ≤ interval) :
    waitWakeTime interval tReq = interval :=
  pollLoop_of_le tReq interval h _

/-- Claim C2 (exhibit of the code bug): with the reading interval at 3600
seconds and a stop requested the moment the wait begins, the sampling loop
only leaves its wait 3600 seconds later — `time.sleep(interval)` ignores
the stop request — and `stop_system` returns only when its 2-second join
timeout expires, abandoning the still-sleeping thread; it does not return
within the claimed sub-second bound, and no cancellable wait exists. -/
theorem stop_wait_not_cancellable :
    waitWakeTime 3600 0 = 3600 ∧
    stopReturnLatency 3600 0 = 2 ∧
    ¬ stopReturnLatency 3600 0 < 1 := by
  have h₁ : waitWakeTime 3600 0 = 3600 :=
    waitWakeTime_of_early_stop 3600 0 (by norm_num)
  have h₂ : stopReturnLatency 3600 0 = 2 := by
    unfold stopReturnLatency
    rw [h₁]
    norm_num [min_def]
  refine ⟨h₁, h₂, ?_⟩
  rw [h₂]
  norm_num

end Mareo
